import Mathlib

/-!
Verification of the node-sqlite-pool library against its specification.

The development shallowly embeds the final revision of the source:
`src/utils.js` (prepareParams, asyncRunner), `src/Database.js`
(the Database/Connection class with the `_trx` transaction guard,
`_trxCheck`, `_trxWrap`), `src/Statement.js`, and `src/Sqlite.js`
(the pool facade with `_acquireRelease`, `transaction`,
`transactionAsync`, `migrate`).  An earlier revision of the pool
facade, whose `transaction` destroys the connection when ROLLBACK
fails, is embedded separately where a claim references it.

Driver behaviour (node-sqlite3) is modelled as an oracle: a function
giving, for each SQL text or driver entry point, the outcome that the
driver would report through its error-first callback.  Generator
bodies driven by `asyncRunner` are translated step by step into
`Except`-style sequencing: a `yield p` whose promise rejects becomes
the error branch at that point of the translation, and JavaScript
`try`/`catch`/`finally` around the yields becomes the corresponding
case analysis.
-/

/-- Errors are carried as plain messages; driver errors, usage errors and
errors thrown by caller-supplied work are all JavaScript exception values,
distinguished only by their content. -/
abbrev Err := String

/-- JavaScript values passed as variadic SQL parameters (numbers, strings,
arrays, or function values such as row callbacks). -/
inductive JsVal where
  | num (n : Int)
  | str (s : String)
  | arr (xs : List JsVal)
  | fn (id : Nat)

/-- From `src/utils.js`:

    function prepareParams (args, requireCallback = false) {
      let callback;
      if (requireCallback) {
        if (args.length < 1) {
          throw new Error("Callback argument is required");
        }
        callback = args.pop();
      }
      const params = args.length === 1 ? args[0] : args;
      return callback ? [params, callback] : params;
    }

`args.pop()` removes and returns the last element; the remaining
arguments become `params`.  At every call site the popped callback is a
function value, hence truthy, so the result is modelled as the pair of
the params value and an optional callback. -/
def prepareParams (args : List JsVal) (requireCallback : Bool := false) :
    Except Err (JsVal × Option JsVal) :=
  if requireCallback then
    match args.getLast? with
    | none => .error "Callback argument is required"
    | some callback =>
      let rest := args.dropLast
      let params : JsVal := match rest with
        | [p] => p
        | _ => .arr rest
      .ok (params, some callback)
  else
    let params : JsVal := match args with
      | [p] => p
      | _ => .arr args
    .ok (params, none)

/-- A single invocation of the underlying node-sqlite3 driver, as issued by
a Database method. -/
inductive DriverCall where
  | exec (sql : String)
  | run (sql : String) (params : JsVal)
  | get (sql : String) (params : JsVal)
  | all (sql : String) (params : JsVal)
  | each (sql : String) (params : JsVal)
  | prepare (sql : String) (params : JsVal)
  | wait

/-- Oracle for the driver connection handle: for each entry point, the
outcome the driver reports through its error-first callback.  `eachRows`
lists the rows the driver streams to the per-row callback of `each`,
`eachErr` and `eachCount` are the arguments of its completion callback. -/
structure Driver where
  exec : String → Option Err
  run : String → JsVal → Option Err
  get : String → JsVal → Except Err (Option JsVal)
  all : String → JsVal → Except Err (List JsVal)
  prepare : String → JsVal → Option Err
  wait : Option Err
  eachRows : String → JsVal → List JsVal
  eachErr : String → JsVal → Option Err
  eachCount : String → JsVal → Nat

/-- The pool-and-transaction metadata of a Database (Connection) object,
from the constructor in `src/Database.js`:

    constructor (driver, { Promise, trxImmediate, trxParent = null }) {
      ...
      this._immediate = trxImmediate;
      this._parent = trxParent;
      this._trx = null;
    }

`trx` models `this._trx` (the active child transaction connection or
null) and `parent` models `this._parent !== null` (whether this
connection is itself a transaction proxy). -/
structure DbConn where
  trx : Option Unit
  parent : Bool
  immediate : Bool

/-- From `src/Database.js`:

    _trxCheck (parent = false) {
      if (this._trx !== null) {
        throw new Error("A transaction is currently active for this connection");
      }
      else if (parent && this._parent !== null) {
        throw new Error("Managed savepoints are not supported at this time");
      }
    } -/
def trxCheck (conn : DbConn) (parent : Bool := false) : Except Err Unit :=
  if conn.trx.isSome then
    .error "A transaction is currently active for this connection"
  else if parent && conn.parent then
    .error "Managed savepoints are not supported at this time"
  else
    .ok ()

/-- The transaction proxy constructed inside `_trxWrap`:

    const trx = new Database(this.driver, {
      Promise: this.Promise,
      trxImmediate: this._immediate,
      trxParent: this
    }); -/
def mkTrxProxy (conn : DbConn) : DbConn :=
  { trx := none, parent := true, immediate := conn.immediate }

/-- Outcome of one `_trxWrap` invocation: the SQL issued through the
transaction proxy (wrapper statements and the statements of the work
function, in order), the settled result, and the value of the parent
connection field `_trx` afterwards. -/
structure TrxResult (α : Type) where
  trace : List DriverCall
  result : Except Err α
  finalTrx : Option Unit

/-- From `src/Database.js`, with the caller-supplied work abstracted as
the SQL it issues through the proxy (`workTrace`) plus its settled
outcome (`work`):

    _trxWrap (fn, immediate, isAsync = false) {
      this._trxCheck(true);
      return this._async(function* _trxWrapAsync () {
        const trx = new Database(this.driver, { ... trxParent: this });
        this._trx = trx;
        yield immediate ? trx.exec("BEGIN IMMEDIATE") : trx.exec("BEGIN");
        let result;
        try {
          result = yield isAsync ? this._async(fn, trx) : fn.call(this, trx);
          yield trx.exec("COMMIT");
        }
        catch (err) {
          yield trx.exec("ROLLBACK");
          throw err;
        }
        finally {
          this._trx = null;
        }
        return result;
      });
    }

The BEGIN yield sits before the try/finally: when BEGIN rejects, the
generator throws without entering the try block, so the finally clause
never runs and `this._trx` keeps pointing at the proxy.  The begin,
commit and rollback statements go through the proxy `trx`, whose own
`_trx` is null and whose `_trxCheck()` therefore passes. -/
def trxWrap {α : Type} (conn : DbConn) (d : Driver) (immediate : Bool)
    (workTrace : List DriverCall) (work : Except Err α) : TrxResult α :=
  match trxCheck conn true with
  | .error e => ⟨[], .error e, conn.trx⟩
  | .ok _ =>
    let beginSql := if immediate then "BEGIN IMMEDIATE" else "BEGIN"
    match d.exec beginSql with
    | some e => ⟨[.exec beginSql], .error e, some ()⟩
    | none =>
      match work with
      | .ok v =>
        match d.exec "COMMIT" with
        | none =>
          ⟨.exec beginSql :: workTrace ++ [.exec "COMMIT"], .ok v, none⟩
        | some e =>
          match d.exec "ROLLBACK" with
          | none =>
            ⟨.exec beginSql :: workTrace ++ [.exec "COMMIT", .exec "ROLLBACK"],
              .error e, none⟩
          | some e2 =>
            ⟨.exec beginSql :: workTrace ++ [.exec "COMMIT", .exec "ROLLBACK"],
              .error e2, none⟩
      | .error err =>
        match d.exec "ROLLBACK" with
        | none =>
          ⟨.exec beginSql :: workTrace ++ [.exec "ROLLBACK"], .error err, none⟩
        | some e2 =>
          ⟨.exec beginSql :: workTrace ++ [.exec "ROLLBACK"], .error e2, none⟩

/-- `transaction (fn, immediate = this._immediate) { return this._trxWrap(fn, immediate); }`
An absent per-call argument falls back to the connection default. -/
def Database.transaction {α : Type} (conn : DbConn) (d : Driver)
    (immediateArg : Option Bool) (workTrace : List DriverCall)
    (work : Except Err α) : TrxResult α :=
  trxWrap conn d (immediateArg.getD conn.immediate) workTrace work

/-- `transactionAsync (gen, immediate = this._immediate) { return this._trxWrap(gen, immediate, true); }`
The `isAsync` flag only selects how the work is invoked inside the
generator; the yielded outcome is awaited identically, so the embedding
coincides with `Database.transaction`. -/
def Database.transactionAsync {α : Type} (conn : DbConn) (d : Driver)
    (immediateArg : Option Bool) (workTrace : List DriverCall)
    (work : Except Err α) : TrxResult α :=
  trxWrap conn d (immediateArg.getD conn.immediate) workTrace work

/-- Values a settled Database or Statement operation resolves with. -/
inductive Resolved where
  | self                     -- the receiver itself (chaining)
  | unit                     -- undefined
  | stmt                     -- a freshly wrapped Statement handle
  | row (r : Option JsVal)   -- a single row, or the absence indicator
  | rows (rs : List JsVal)   -- the full ordered row sequence
  | count (n : Nat)          -- the final row count of a streaming read

/-- `Database.run` from `src/Database.js`: `this._trxCheck()`, then
parameter normalization, then exactly one `driver.run` whose callback
resolves with a Statement wrapping the just-executed statement. -/
def Database.run (conn : DbConn) (d : Driver) (sql : String) (args : List JsVal) :
    List DriverCall × Except Err Resolved :=
  match trxCheck conn with
  | .error e => ([], .error e)
  | .ok _ =>
    match prepareParams args with
    | .error e => ([], .error e)
    | .ok (params, _) =>
      ([.run sql params],
        match d.run sql params with
        | some e => .error e
        | none => .ok .stmt)

/-- `Database.get`: guard check, normalization, one `driver.get`. -/
def Database.get (conn : DbConn) (d : Driver) (sql : String) (args : List JsVal) :
    List DriverCall × Except Err Resolved :=
  match trxCheck conn with
  | .error e => ([], .error e)
  | .ok _ =>
    match prepareParams args with
    | .error e => ([], .error e)
    | .ok (params, _) =>
      ([.get sql params],
        match d.get sql params with
        | .error e => .error e
        | .ok r => .ok (.row r))

/-- `Database.all`: guard check, normalization, one `driver.all`. -/
def Database.all (conn : DbConn) (d : Driver) (sql : String) (args : List JsVal) :
    List DriverCall × Except Err Resolved :=
  match trxCheck conn with
  | .error e => ([], .error e)
  | .ok _ =>
    match prepareParams args with
    | .error e => ([], .error e)
    | .ok (params, _) =>
      ([.all sql params],
        match d.all sql params with
        | .error e => .error e
        | .ok rs => .ok (.rows rs))

/-- `Database.exec`: guard check, one `driver.exec`; resolves with the
Database itself. -/
def Database.exec (conn : DbConn) (d : Driver) (sql : String) :
    List DriverCall × Except Err Resolved :=
  match trxCheck conn with
  | .error e => ([], .error e)
  | .ok _ =>
    ([.exec sql],
      match d.exec sql with
      | some e => .error e
      | none => .ok .self)

/-- `Database.prepare`: guard check, normalization, one `driver.prepare`;
resolves with a Statement wrapping the prepared handle. -/
def Database.prepare (conn : DbConn) (d : Driver) (sql : String) (args : List JsVal) :
    List DriverCall × Except Err Resolved :=
  match trxCheck conn with
  | .error e => ([], .error e)
  | .ok _ =>
    match prepareParams args with
    | .error e => ([], .error e)
    | .ok (params, _) =>
      ([.prepare sql params],
        match d.prepare sql params with
        | some e => .error e
        | none => .ok .stmt)

/-- `Database.wait`: guard check, one `driver.wait`. -/
def Database.wait (conn : DbConn) (d : Driver) :
    List DriverCall × Except Err Resolved :=
  match trxCheck conn with
  | .error e => ([], .error e)
  | .ok _ =>
    ([.wait],
      match d.wait with
      | some e => .error e
      | none => .ok .unit)

/-- One step of the guarded per-row callback used by both `each`
implementations:

    const cb = (err, row) => {
      if (error !== null) { return; }
      try { callback(row); }
      catch (e) { error = e; }
    };

The state is the list of rows the caller-supplied callback has been
invoked on so far and the first error it threw, if any.  The semantics
of the caller-supplied callback is `callback`; it is invoked on a row
only while no earlier invocation has thrown. -/
def eachStep (callback : JsVal → Except Err Unit)
    (st : List JsVal × Option Err) (row : JsVal) : List JsVal × Option Err :=
  match st.2 with
  | some _ => st
  | none =>
    match callback row with
    | .ok _ => (st.1 ++ [row], none)
    | .error e => (st.1 ++ [row], some e)

/-- The completion logic shared by `Database.each` and `Statement.each`:
the driver streams `rows` to the guarded callback, then invokes the
completion callback with `driverErr` and `rowsCount`:

    const done = (err, rowsCount = 0) => {
      if (err) { reject(err); }
      else if (error) { reject(error); }
      else { resolve(rowsCount); }
    };

Returns the rows on which the caller-supplied callback was invoked and
the settled outcome. -/
def eachOutcome (rows : List JsVal) (driverErr : Option Err) (rowsCount : Nat)
    (callback : JsVal → Except Err Unit) : List JsVal × Except Err Nat :=
  let st := rows.foldl (eachStep callback) ([], none)
  (st.1,
    match driverErr with
    | some e => .error e
    | none =>
      match st.2 with
      | some e => .error e
      | none => .ok rowsCount)

/-- `Database.each` from `src/Database.js`: guard check, then
`prepareParams(args, true)` splits off the trailing row callback, then
one `driver.each` call whose guarded per-row and completion callbacks
follow `eachOutcome`.  `args` are the variadic arguments at the call
site (the callback value last); `callback` is the semantics of that
callback value. -/
def Database.each (conn : DbConn) (d : Driver) (sql : String) (args : List JsVal)
    (callback : JsVal → Except Err Unit) :
    List DriverCall × (List JsVal × Except Err Nat) :=
  match trxCheck conn with
  | .error e => ([], ([], .error e))
  | .ok _ =>
    match prepareParams args true with
    | .error e => ([], ([], .error e))
    | .ok (params, _) =>
      ([.each sql params],
        eachOutcome (d.eachRows sql params) (d.eachErr sql params)
          (d.eachCount sql params) callback)

/-- Oracle for a driver prepared-statement handle, as consumed by
`src/Statement.js`: for each entry point, the outcome its error-first
callback reports.  `resetErr` is the error argument a driver could pass
to the reset callback (node-sqlite3 never does; the field makes the
the handling of that argument by the wrapper code observable). -/
structure StmtDriver where
  bindErr : JsVal → Option Err
  runErr : JsVal → Option Err
  getRes : JsVal → Except Err (Option JsVal)
  allRes : JsVal → Except Err (List JsVal)
  resetErr : Option Err
  finalizeErr : Option Err
  eachRows : JsVal → List JsVal
  eachErr : JsVal → Option Err
  eachCount : JsVal → Nat

/-- `Statement.bind`: one `stmt.bind(params, cb)`; resolves with the
Statement itself on success, rejects with the reported error. -/
def Statement.bind (sd : StmtDriver) (args : List JsVal) :
    List String × Except Err Resolved :=
  match prepareParams args with
  | .error e => ([], .error e)
  | .ok (params, _) =>
    (["bind"],
      match sd.bindErr params with
      | some e => .error e
      | none => .ok .self)

/-- `Statement.run`: one `stmt.run(params, cb)`; resolves with the
Statement itself on success. -/
def Statement.run (sd : StmtDriver) (args : List JsVal) :
    List String × Except Err Resolved :=
  match prepareParams args with
  | .error e => ([], .error e)
  | .ok (params, _) =>
    (["run"],
      match sd.runErr params with
      | some e => .error e
      | none => .ok .self)

/-- `Statement.get`: one `stmt.get(params, cb)`; resolves with a single
row or the absence indicator. -/
def Statement.get (sd : StmtDriver) (args : List JsVal) :
    List String × Except Err Resolved :=
  match prepareParams args with
  | .error e => ([], .error e)
  | .ok (params, _) =>
    (["get"],
      match sd.getRes params with
      | .error e => .error e
      | .ok r => .ok (.row r))

/-- `Statement.all`: one `stmt.all(params, cb)`; resolves with the full
ordered row sequence. -/
def Statement.all (sd : StmtDriver) (args : List JsVal) :
    List String × Except Err Resolved :=
  match prepareParams args with
  | .error e => ([], .error e)
  | .ok (params, _) =>
    (["all"],
      match sd.allRes params with
      | .error e => .error e
      | .ok rs => .ok (.rows rs))

/-- `Statement.reset` from `src/Statement.js`:

    reset () {
      return new this.Promise((resolve) => {
        this.stmt.reset(() => {
          resolve(this);
        });
      });
    }

The executor takes only `resolve`, and the reset callback ignores any
argument the driver passes: the promise always resolves with the
Statement itself. -/
def Statement.reset (_sd : StmtDriver) : List String × Except Err Resolved :=
  (["reset"], .ok .self)

/-- `Statement.finalize`: one `stmt.finalize(cb)`; resolves with
undefined on success. -/
def Statement.finalize (sd : StmtDriver) : List String × Except Err Resolved :=
  (["finalize"],
    match sd.finalizeErr with
    | some e => .error e
    | none => .ok .unit)

/-- `Statement.each` from `src/Statement.js`: `prepareParams(args, true)`
splits off the trailing row callback, then one `stmt.each` call with the
same guarded per-row and completion callbacks as `Database.each`. -/
def Statement.each (sd : StmtDriver) (args : List JsVal)
    (callback : JsVal → Except Err Unit) :
    List String × (List JsVal × Except Err Nat) :=
  match prepareParams args true with
  | .error e => ([], ([], .error e))
  | .ok (params, _) =>
    (["each"],
      eachOutcome (sd.eachRows params) (sd.eachErr params)
        (sd.eachCount params) callback)

/-- Pool lifecycle actions taken on the acquired connection by a
pool-level operation. -/
inductive PoolEvent where
  | acquire
  | release
  | destroy
deriving DecidableEq

/-- The default of the `trxImmediate` option in the `defaults` object of
`src/Sqlite.js`. -/
def defaultTrxImmediate : Bool := true

/-- The transaction-relevant state of the Sqlite pool facade after
`Object.assign({}, defaults, options)` in the constructor:
`this._immediate = trxImmediate`. -/
structure SqlitePool where
  immediate : Bool

/-- Constructing the pool facade with an optional `trxImmediate` entry in
`options`: an absent entry falls back to the default. -/
def SqlitePool.make (trxImmediateOpt : Option Bool) : SqlitePool :=
  ⟨trxImmediateOpt.getD defaultTrxImmediate⟩

/-- The connection produced by the pool factory `_create`: a fresh
Database carrying `trxImmediate: this._immediate`, no parent, no active
guard. -/
def SqlitePool.createConn (s : SqlitePool) : DbConn :=
  { trx := none, parent := false, immediate := s.immediate }

/-- `_acquireRelease` from `src/Sqlite.js`, with the delegated call
abstracted as its settled outcome:

    _acquireRelease (fn, isAsync = false) {
      return this._async(function* _acquireReleaseAsync () {
        const connection = yield this._pool.acquire();
        let result;
        try {
          ... result = yield fn.call(this, connection); ...
        }
        finally {
          this._release(connection);
        }
        return result;
      });
    }

If acquisition rejects, the delegated call never runs; otherwise the
connection is released in the finally clause whatever the outcome.
`_release` defers via setImmediate when delayRelease is set, but in
either mode it calls `this._pool.release(connection)`, never
`this._pool.destroy`. -/
def acquireRelease {α : Type} (acquireErr : Option Err) (fnResult : Except Err α) :
    List PoolEvent × Except Err α :=
  match acquireErr with
  | some e => ([], .error e)
  | none => ([.acquire, .release], fnResult)

/-- Pool-level `transaction` from `src/Sqlite.js`:

    transaction (fn, immediate = this._immediate) {
      return this._acquireRelease(conn => conn.transaction(fn, immediate));
    } -/
def SqlitePool.transaction {α : Type} (s : SqlitePool) (acquireErr : Option Err)
    (d : Driver) (immediateArg : Option Bool) (workTrace : List DriverCall)
    (work : Except Err α) : List PoolEvent × Except Err α :=
  let immediate := immediateArg.getD s.immediate
  acquireRelease acquireErr
    (Database.transaction s.createConn d (some immediate) workTrace work).result

/-- Pool-level `transactionAsync` from `src/Sqlite.js`, identical to
`transaction` except for delegating to `conn.transactionAsync`. -/
def SqlitePool.transactionAsync {α : Type} (s : SqlitePool) (acquireErr : Option Err)
    (d : Driver) (immediateArg : Option Bool) (workTrace : List DriverCall)
    (work : Except Err α) : List PoolEvent × Except Err α :=
  let immediate := immediateArg.getD s.immediate
  acquireRelease acquireErr
    (Database.transactionAsync s.createConn d (some immediate) workTrace work).result

/-- The earlier revision of the pool facade (the standalone `Sqlite`
class whose `transaction` manages begin/commit/rollback itself):

    async transaction (fn, trx_immediate) {
      let connection = await this._pool.acquire();
      if (trx_immediate === undefined) { trx_immediate = this._trx_immediate; }
      if (trx_immediate) { await connection.exec("BEGIN IMMEDIATE"); }
      else { await connection.exec("BEGIN"); }
      try {
        let result = fn(connection);
        if (isThenable(result)) { await result; } else { await connection.wait(); }
        await connection.exec("COMMIT");
      }
      catch (err) {
        try {
          await connection.exec("ROLLBACK");
          this._release(connection);
        }
        catch (e) {
          this._pool.destroy(connection);
        }
        throw err;
      }
      return result;
    }

On a failed ROLLBACK this revision destroys the acquired connection
instead of releasing it, and rethrows the original error. -/
def SqliteV1.transaction {α : Type} (poolImmediate : Bool) (acquireErr : Option Err)
    (d : Driver) (immediateArg : Option Bool) (work : Except Err α) :
    List PoolEvent × Except Err α :=
  match acquireErr with
  | some e => ([], .error e)
  | none =>
    let beginSql := if immediateArg.getD poolImmediate then "BEGIN IMMEDIATE" else "BEGIN"
    match d.exec beginSql with
    | some e => ([.acquire], .error e)
    | none =>
      match work with
      | .ok v =>
        match d.exec "COMMIT" with
        | none => ([.acquire], .ok v)
        | some e =>
          match d.exec "ROLLBACK" with
          | none => ([.acquire, .release], .error e)
          | some _ => ([.acquire, .destroy], .error e)
      | .error err =>
        match d.exec "ROLLBACK" with
        | none => ([.acquire, .release], .error err)
        | some _ => ([.acquire, .destroy], .error err)

/-- A migration record: parsed from a file or read back from the
persisted migrations table (both carry the same fields). -/
structure Migration where
  id : Int
  name : String
  up : String
  down : String
deriving DecidableEq

/-- The `force` option of `migrate()`: absent, the sentinel `"last"`, or
an explicit integer target (the `Number.isInteger(force)` case). -/
inductive Force where
  | undefined
  | last
  | int (n : Int)

/-- The descending comparison on migration rows used by
`_runMigrationsAsync`:

    .sort((a, b) => (a.id < b.id ? 1 : a.id > b.id ? -1 : 0)) -/
def migGE (a b : Migration) : Prop := b.id ≤ a.id

instance : DecidableRel migGE :=
  fun a b => inferInstanceAs (Decidable (b.id ≤ a.id))

instance : IsTotal Migration migGE := ⟨fun a b => le_total b.id a.id⟩

instance : IsTrans Migration migGE := ⟨fun _ _ _ h1 h2 => le_trans h2 h1⟩

/-- `dbMigrations.slice().sort(...)`: the applied rows re-sorted into
descending id order (ids are unique in the table, so comparator details
on ties are immaterial). -/
def sortDescById (l : List Migration) : List Migration :=
  l.insertionSort migGE

/-- The revert condition of the downward walk in `_runMigrationsAsync`:

    if (!migrations.some(x => x.id === migration.id) ||
        (Number.isInteger(force) && migration.id > force) ||
        (force === "last" && migration.id === lastMigration.id)) -/
def revertCond (migrations : List Migration) (lastFileId : Int) (force : Force)
    (row : Migration) : Bool :=
  !(migrations.any (fun x => x.id == row.id)) ||
    (match force with
     | .int n => decide (n < row.id)
     | _ => false) ||
    (match force with
     | .last => row.id == lastFileId
     | _ => false)

/-- The downward walk itself: revert each row satisfying the condition
(running its stored down script in its own transaction and deleting its
table row, then `dbMigrations = dbMigrations.filter(x => x.id !== migration.id)`),
and break at the first row satisfying none.  Returns the reverted rows
in revert order and the remaining `dbMigrations` list.  Each revert
transaction of each step is modelled as succeeding; a failing step would
abort the walk, which no claim concerns. -/
def revertWalk (migrations : List Migration) (lastFileId : Int) (force : Force) :
    List Migration → List Migration → List Migration × List Migration
  | [], dbMigrations => ([], dbMigrations)
  | row :: rest, dbMigrations =>
    if revertCond migrations lastFileId force row then
      let next := revertWalk migrations lastFileId force rest
        (dbMigrations.filter (fun x => x.id != row.id))
      (row :: next.1, next.2)
    else
      ([], dbMigrations)

/-- The outcome of `_runMigrationsAsync` on already-validated inputs:
which rows are reverted (in order), which file migrations are applied
(in order), and the applied rows remaining in the table after the
downward walk (the final `dbMigrations`). -/
structure MigratePlan where
  reverted : List Migration
  applied : List Migration
  remaining : List Migration

/-- `_runMigrationsAsync` from `src/Sqlite.js`, beyond the table-creation
and row-loading steps: `migrations` is the parsed file list (ascending
by id, as produced by the sort in `migrate`), `dbMigrations` the applied
rows as loaded by `SELECT ... ORDER BY id ASC`:

    const lastMigration = migrations[migrations.length - 1];
    const prev = dbMigrations.slice().sort(<descending by id>);
    for (const migration of prev) { <revertWalk> }
    const lastMigrationId = dbMigrations.length
                          ? dbMigrations[dbMigrations.length - 1].id : 0;
    const maxMigrationId = Number.isInteger(force)
                         ? force : migrations[migrations.length - 1].id;
    for (const migration of migrations) {
      if (migration.id > lastMigrationId && migration.id <= maxMigrationId) { <apply> }
    }

`migrate` rejects an empty file list before this runs, so the
`getLast?` fallbacks are never exercised on the claims' inputs. -/
def runMigrations (migrations dbMigrations : List Migration) (force : Force) :
    MigratePlan :=
  let lastFileId := ((migrations.getLast?).map Migration.id).getD 0
  let prev := sortDescById dbMigrations
  let walked := revertWalk migrations lastFileId force prev dbMigrations
  let lastMigrationId := ((walked.2.getLast?).map Migration.id).getD 0
  let maxMigrationId := match force with
    | .int n => n
    | _ => lastFileId
  let applied := migrations.filter (fun m =>
    lastMigrationId < m.id && m.id ≤ maxMigrationId)
  ⟨walked.1, applied, walked.2⟩

/-- Decimal digit, the `\d` class of the filename pattern. -/
def isDigitChar (c : Char) : Bool := decide ('0' ≤ c) && decide (c ≤ '9')

/-- Whitespace, the `\s` class of the down-separator pattern (the class
members that can occur in SQL migration text). -/
def isSpaceChar (c : Char) : Bool :=
  c == ' ' || c == '\t' || c == '\n' || c == '\r' || c == '\x0b' || c == '\x0c'

/-- The filename filter of `migrate`:

    files.map(x => x.match(/^(\d+).(.*?)\.sql$/)).filter(x => x !== null)

The pattern anchors both ends; after the leading digit group the
unescaped dot consumes one arbitrary character and the lazy group any
remainder, so a name matches exactly when it starts with a digit, ends
in ".sql", and has at least one character between a digit prefix and
that suffix, i.e. at least six characters with a digit first and the
".sql" suffix last. -/
def matchesMigrationFilename (s : String) : Bool :=
  match s.data with
  | [] => false
  | c :: rest =>
    isDigitChar c && decide (rest.length ≥ 5) &&
      decide (s.data.drop (s.data.length - 4) = ".sql".data)

/-- Case-insensitive `down` at the head of the character stream. -/
def caselessDown (cs : List Char) : Bool :=
  match cs with
  | d :: o :: w :: n :: _ =>
    (d == 'd' || d == 'D') && (o == 'o' || o == 'O') &&
      (w == 'w' || w == 'W') && (n == 'n' || n == 'N')
  | _ => false

/-- After at least one whitespace character has been consumed: `down`
here, or one more whitespace character and recurse (`\s+?down` with
backtracking). -/
def downAfterSpaces : List Char → Bool
  | [] => false
  | c :: rest => caselessDown (c :: rest) || (isSpaceChar c && downAfterSpaces rest)

/-- A match of `--\s+?down` (case-insensitively) starting at this
position: two dashes, one or more whitespace characters, `down`. -/
def downSepAt (cs : List Char) : Bool :=
  match cs with
  | '-' :: '-' :: c :: rest => isSpaceChar c && downAfterSpaces rest
  | _ => false

/-- Multiline scan for `/^--\s+?down/mi`: a match may start at the
beginning of the text or right after a newline. -/
def hasDownSepAux : Bool → List Char → Bool
  | _, [] => false
  | true, c :: rest => downSepAt (c :: rest) || hasDownSepAux (c == '\n') rest
  | false, c :: rest => hasDownSepAux (c == '\n') rest

/-- Whether a migration file body contains a `-- Down` separator, the
condition under which `data.split(/^--\s+?down/mi)` yields a second
piece.  (The source also rejects a file whose text after the first
separator is empty, since that second piece is falsy; the claims only
concern files lacking the separator, so matching files with empty down
text are not given that extra rejection here.) -/
def hasDownSep (content : String) : Bool :=
  hasDownSepAux true content.data

/-- A directory entry handed to `migrate`: the filename and the file
body that `fs.readFile` would return for it. -/
structure MigFile where
  filename : String
  content : String

/-- The validation stages of `migrate` that precede every SQL step:
filter directory entries by the filename pattern (the ascending sort
between filtering and the emptiness test only permutes the list), fail
when no file matches, then read every file and fail when any lacks a
down separator (`Promise.all` rejects with the first failing file).
Only a fully validated set reaches `_runMigrationsAsync`. -/
def migrateValidate (dirFiles : List MigFile) : Except Err (List MigFile) :=
  let files := dirFiles.filter (fun f => matchesMigrationFilename f.filename)
  if files.isEmpty then
    .error "No migration files found"
  else
    match files.find? (fun f => !(hasDownSep f.content)) with
    | some f => .error (f.filename ++ " is missing a Down separator")
    | none => .ok files

/-- The SQL that one `migrate()` invocation issues, for an arbitrary
migration body `body` (the `useAsync` block: table creation, row
loading, and the revert/apply transactions of `_runMigrationsAsync`):
the body runs only on a validated file set. -/
def migrateSqlSteps (dirFiles : List MigFile) (body : List MigFile → List String) :
    List String :=
  match migrateValidate dirFiles with
  | .error _ => []
  | .ok files => body files

/-- The settled outcome of `migrate()` as far as validation decides it. -/
def migrateError (dirFiles : List MigFile) : Option Err :=
  match migrateValidate dirFiles with
  | .error e => some e
  | .ok _ => none

/-- A driver oracle whose every operation succeeds and streams nothing. -/
def okDriver : Driver where
  exec := fun _ => none
  run := fun _ _ => none
  get := fun _ _ => .ok none
  all := fun _ _ => .ok []
  prepare := fun _ _ => none
  wait := none
  eachRows := fun _ _ => []
  eachErr := fun _ _ => none
  eachCount := fun _ _ => 0

/-- A driver oracle failing exactly one SQL text through `exec`. -/
def failOn (sql : String) (e : Err) : Driver :=
  { okDriver with exec := fun s => if s == sql then some e else none }

/-- A statement-handle oracle whose every operation succeeds. -/
def okStmtDriver : StmtDriver where
  bindErr := fun _ => none
  runErr := fun _ => none
  getRes := fun _ => .ok none
  allRes := fun _ => .ok []
  resetErr := none
  finalizeErr := none
  eachRows := fun _ => []
  eachErr := fun _ => none
  eachCount := fun _ => 0

/-- The usage-error message thrown when the guard of a connection is set. -/
def trxActiveMsg : Err := "A transaction is currently active for this connection"

/-- The usage-error message thrown for a nested managed transaction. -/
def trxNestedMsg : Err := "Managed savepoints are not supported at this time"

/-- C6: the Parameter Normalizer yields the lone argument itself when
exactly one argument was given and the full ordered argument sequence
otherwise, so single-aggregate and flat-list call styles bind equivalent
parameters; for streaming operations it splits off the trailing row
callback, and fails with an error when a streaming call supplies no
arguments. -/
theorem C6_prepareParams_spec :
    (∀ p : JsVal, prepareParams [p] = .ok (p, none)) ∧
    (∀ args : List JsVal, args.length ≠ 1 →
      prepareParams args = .ok (.arr args, none)) ∧
    (prepareParams [.num 1, .num 2, .num 3]
      = prepareParams [.arr [.num 1, .num 2, .num 3]]) ∧
    (∀ (args : List JsVal) (cb : JsVal),
      prepareParams (args ++ [cb]) true
        = .ok ((match args with | [p] => p | _ => JsVal.arr args), some cb)) ∧
    (prepareParams [] true = .error "Callback argument is required") := by
  refine ⟨fun p => rfl, ?_, rfl, ?_, rfl⟩
  · intro args h
    match args with
    | [] => rfl
    | [p] => exact absurd rfl h
    | a :: b :: t => rfl
  · intro args cb
    simp [prepareParams, List.getLast?_concat, List.dropLast_concat]

/-- C6 witness: the normalizer on the two-argument flat list. -/
theorem C6_prepareParams_spec_witness :
    prepareParams [JsVal.num 7, JsVal.num 8]
      = .ok (.arr [JsVal.num 7, JsVal.num 8], none) :=
  C6_prepareParams_spec.2.1 [JsVal.num 7, JsVal.num 8] (by decide)

/-- C1: when the caller-supplied work fails inside `transaction()` or
`transactionAsync()`, ROLLBACK is issued through the proxy after the
BEGIN; a successful ROLLBACK surfaces the original work error, a failed
ROLLBACK propagates its own error to the caller in place of the
original. -/
theorem C1_rollback_on_work_failure {α : Type} (conn : DbConn) (d : Driver)
    (immediate : Bool) (workTrace : List DriverCall) (e : Err)
    (hcheck : trxCheck conn true = .ok ())
    (hbegin : d.exec (if immediate then "BEGIN IMMEDIATE" else "BEGIN") = none) :
    (trxWrap conn d immediate workTrace (Except.error e : Except Err α)).trace
        = .exec (if immediate then "BEGIN IMMEDIATE" else "BEGIN")
            :: workTrace ++ [.exec "ROLLBACK"] ∧
    (d.exec "ROLLBACK" = none →
      (trxWrap conn d immediate workTrace (Except.error e : Except Err α)).result
        = .error e) ∧
    (∀ e2, d.exec "ROLLBACK" = some e2 →
      (trxWrap conn d immediate workTrace (Except.error e : Except Err α)).result
        = .error e2) ∧
    (∀ immediateArg : Option Bool,
      Database.transaction conn d immediateArg workTrace (Except.error e : Except Err α)
        = trxWrap conn d (immediateArg.getD conn.immediate) workTrace (Except.error e) ∧
      Database.transactionAsync conn d immediateArg workTrace (Except.error e : Except Err α)
        = trxWrap conn d (immediateArg.getD conn.immediate) workTrace (Except.error e)) := by
  refine ⟨?_, ?_, ?_, fun _ => ⟨rfl, rfl⟩⟩
  · cases hrb : d.exec "ROLLBACK" <;> simp [trxWrap, hcheck, hbegin, hrb]
  · intro hrb; simp [trxWrap, hcheck, hbegin, hrb]
  · intro e2 hrb; simp [trxWrap, hcheck, hbegin, hrb]

/-- C1 witness: a failing work function on a fresh connection, with a
driver whose ROLLBACK succeeds: the original error is surfaced. -/
theorem C1_rollback_on_work_failure_witness :
    (trxWrap ⟨none, false, true⟩ okDriver true [] (Except.error "boom" : Except Err Nat)).trace
        = [.exec "BEGIN IMMEDIATE", .exec "ROLLBACK"] ∧
    (trxWrap ⟨none, false, true⟩ okDriver true [] (Except.error "boom" : Except Err Nat)).result
        = .error "boom" := by
  have h := C1_rollback_on_work_failure (α := Nat) ⟨none, false, true⟩ okDriver true [] "boom"
    rfl rfl
  exact ⟨h.1, h.2.1 rfl⟩

/-- C3: a `transaction()`/`transactionAsync()` call whose work resolves
issues exactly one BEGIN IMMEDIATE (when immediate mode is in effect) or
BEGIN, then the statements of the work, then exactly one COMMIT, and
resolves with the result of the work; the immediate default is true unless overridden
per call or at pool construction. -/
theorem C3_success_begin_commit :
    (∀ {α : Type} (conn : DbConn) (d : Driver) (immediateArg : Option Bool)
        (workTrace : List DriverCall) (v : α),
      trxCheck conn true = .ok () →
      d.exec (if immediateArg.getD conn.immediate then "BEGIN IMMEDIATE" else "BEGIN")
          = none →
      d.exec "COMMIT" = none →
      (Database.transaction conn d immediateArg workTrace (Except.ok v)).trace
          = .exec (if immediateArg.getD conn.immediate then "BEGIN IMMEDIATE" else "BEGIN")
              :: workTrace ++ [.exec "COMMIT"] ∧
      (Database.transaction conn d immediateArg workTrace (Except.ok v)).result
          = .ok v ∧
      Database.transactionAsync conn d immediateArg workTrace (Except.ok v)
          = Database.transaction conn d immediateArg workTrace (Except.ok v)) ∧
    (∀ b : Option Bool, ((SqlitePool.make b).createConn).immediate = b.getD true) ∧
    defaultTrxImmediate = true := by
  refine ⟨?_, fun _ => rfl, rfl⟩
  intro α conn d immediateArg workTrace v hcheck hbegin hcommit
  refine ⟨?_, ?_, rfl⟩ <;>
    simp [Database.transaction, trxWrap, hcheck, hbegin, hcommit]

/-- C3 witness: a successful transaction on a default-constructed pool
connection with an always-succeeding driver. -/
theorem C3_success_begin_commit_witness :
    (Database.transaction ((SqlitePool.make none).createConn) okDriver none
        [.exec "INSERT"] (Except.ok 42 : Except Err Nat)).trace
      = [.exec "BEGIN IMMEDIATE", .exec "INSERT", .exec "COMMIT"] ∧
    (Database.transaction ((SqlitePool.make none).createConn) okDriver none
        [.exec "INSERT"] (Except.ok 42 : Except Err Nat)).result = .ok 42 := by
  have h := C3_success_begin_commit.1 ((SqlitePool.make none).createConn) okDriver none
    [.exec "INSERT"] (42 : Nat) rfl rfl rfl
  exact ⟨h.1, h.2.1⟩

/-- C4 counterexample: on a fresh connection, when the BEGIN IMMEDIATE
issued by `_trxWrap` itself fails, the call rejects while the guard is
still set — the BEGIN yield precedes the try/finally, so the
guard-clearing finally clause never runs on that exit. -/
theorem C4_guard_counterexample :
    (trxWrap ⟨none, false, true⟩ (failOn "BEGIN IMMEDIATE" "SQLITE_BUSY") true []
        (Except.ok 0 : Except Err Nat)).finalTrx = some () ∧
    (trxWrap ⟨none, false, true⟩ (failOn "BEGIN IMMEDIATE" "SQLITE_BUSY") true []
        (Except.ok 0 : Except Err Nat)).result = .error "SQLITE_BUSY" :=
  ⟨rfl, rfl⟩

/-- C4 (amended): after a successful BEGIN, the guard is cleared on
every exit — commit or rollback, success or failure — before the call
returns or rethrows; when the BEGIN itself fails, the call rejects with
the guard left set. -/
theorem C4_guard_cleared_after_begin {α : Type} (conn : DbConn) (d : Driver)
    (immediate : Bool) (workTrace : List DriverCall) (work : Except Err α)
    (hcheck : trxCheck conn true = .ok ()) :
    (d.exec (if immediate then "BEGIN IMMEDIATE" else "BEGIN") = none →
      (trxWrap conn d immediate workTrace work).finalTrx = none) ∧
    (∀ e, d.exec (if immediate then "BEGIN IMMEDIATE" else "BEGIN") = some e →
      (trxWrap conn d immediate workTrace work).finalTrx = some () ∧
      (trxWrap conn d immediate workTrace work).result = .error e) := by
  constructor
  · intro hbegin
    cases work with
    | ok v =>
      cases hc : d.exec "COMMIT" with
      | none => simp [trxWrap, hcheck, hbegin, hc]
      | some e =>
        cases hr : d.exec "ROLLBACK" <;> simp [trxWrap, hcheck, hbegin, hc, hr]
    | error e =>
      cases hr : d.exec "ROLLBACK" <;> simp [trxWrap, hcheck, hbegin, hr]
  · intro e hbegin
    simp [trxWrap, hcheck, hbegin]

/-- C4 witness: a successful transaction clears the guard. -/
theorem C4_guard_cleared_after_begin_witness :
    (trxWrap ⟨none, false, true⟩ okDriver true [] (Except.ok 0 : Except Err Nat)).finalTrx
      = none :=
  (C4_guard_cleared_after_begin ⟨none, false, true⟩ okDriver true []
    (Except.ok 0) rfl).1 rfl

/-- C5: with the guard set, every non-transaction operation fails fast
with the transaction-currently-active usage error and issues no SQL;
re-entering `transaction()`/`transactionAsync()` fails immediately with
zero SQL; a transaction proxy itself passes the plain guard check (its
own guard is clear) so operations invoked on the proxy do reach the
driver; and `transaction()` on a proxy connection is rejected with the
managed-savepoints usage error even though its own guard is clear. -/
theorem C5_guard_fail_fast (conn : DbConn) (d : Driver) (sql : String)
    (args : List JsVal) (cb : JsVal → Except Err Unit)
    (hset : conn.trx = some ()) :
    Database.run conn d sql args = ([], .error trxActiveMsg) ∧
    Database.get conn d sql args = ([], .error trxActiveMsg) ∧
    Database.all conn d sql args = ([], .error trxActiveMsg) ∧
    Database.exec conn d sql = ([], .error trxActiveMsg) ∧
    Database.each conn d sql args cb = ([], ([], .error trxActiveMsg)) ∧
    Database.prepare conn d sql args = ([], .error trxActiveMsg) ∧
    Database.wait conn d = ([], .error trxActiveMsg) ∧
    (∀ {α : Type} (immediateArg : Option Bool) (workTrace : List DriverCall)
        (work : Except Err α),
      (Database.transaction conn d immediateArg workTrace work).trace = [] ∧
      (Database.transaction conn d immediateArg workTrace work).result
          = .error trxActiveMsg ∧
      (Database.transactionAsync conn d immediateArg workTrace work).trace = [] ∧
      (Database.transactionAsync conn d immediateArg workTrace work).result
          = .error trxActiveMsg) ∧
    (∀ c : DbConn, trxCheck (mkTrxProxy c) = .ok ()) ∧
    (Database.exec (mkTrxProxy conn) d sql).1 = [.exec sql] ∧
    (∀ (c : DbConn) {α : Type} (immediateArg : Option Bool)
        (workTrace : List DriverCall) (work : Except Err α),
      c.trx = none → c.parent = true →
      (Database.transaction c d immediateArg workTrace work).trace = [] ∧
      (Database.transaction c d immediateArg workTrace work).result
          = .error trxNestedMsg) := by
  refine ⟨?_, ?_, ?_, ?_, ?_, ?_, ?_, ?_, fun c => rfl, ?_, ?_⟩
  · simp [Database.run, trxCheck, hset, trxActiveMsg]
  · simp [Database.get, trxCheck, hset, trxActiveMsg]
  · simp [Database.all, trxCheck, hset, trxActiveMsg]
  · simp [Database.exec, trxCheck, hset, trxActiveMsg]
  · simp [Database.each, trxCheck, hset, trxActiveMsg]
  · simp [Database.prepare, trxCheck, hset, trxActiveMsg]
  · simp [Database.wait, trxCheck, hset, trxActiveMsg]
  · intro α immediateArg workTrace work
    refine ⟨?_, ?_, ?_, ?_⟩ <;>
      simp [Database.transaction, Database.transactionAsync, trxWrap, trxCheck, hset,
        trxActiveMsg]
  · simp [Database.exec, mkTrxProxy, trxCheck]
  · intro c α immediateArg workTrace work hnone hparent
    constructor <;>
      simp [Database.transaction, trxWrap, trxCheck, hnone, hparent, trxNestedMsg]

/-- C5 witness: a connection whose guard is set rejects `run` without
issuing SQL. -/
theorem C5_guard_fail_fast_witness :
    Database.run ⟨some (), false, true⟩ okDriver "SELECT 1" []
      = ([], .error trxActiveMsg) :=
  (C5_guard_fail_fast ⟨some (), false, true⟩ okDriver "SELECT 1" []
    (fun _ => .ok ()) rfl).1

/-- C2 counterexample: in the current pool facade, a pool-level
`transaction()` whose ROLLBACK fails still releases the acquired
connection back to the pool (the `_acquireRelease` finally clause), and
never destroys it. -/
theorem C2_destroy_counterexample :
    (SqlitePool.transaction (SqlitePool.make none) none
        (failOn "ROLLBACK" "disk error") none []
        (Except.error "boom" : Except Err Nat)).1 = [.acquire, .release] ∧
    PoolEvent.destroy ∉ (SqlitePool.transaction (SqlitePool.make none) none
        (failOn "ROLLBACK" "disk error") none []
        (Except.error "boom" : Except Err Nat)).1 ∧
    (SqlitePool.transaction (SqlitePool.make none) none
        (failOn "ROLLBACK" "disk error") none []
        (Except.error "boom" : Except Err Nat)).2 = .error "disk error" := by
  have h1 : (SqlitePool.transaction (SqlitePool.make none) none
      (failOn "ROLLBACK" "disk error") none []
      (Except.error "boom" : Except Err Nat)).1 = [.acquire, .release] := rfl
  refine ⟨h1, ?_, rfl⟩
  rw [h1]; decide

/-- C2 (amended): the current pool facade always releases the acquired
connection — never destroys it — whatever the transaction outcome,
while a failed ROLLBACK still reaches the caller as the rejection; only
the earlier pool revision destroyed the connection after a failed
ROLLBACK (and there it rethrew the original work error). -/
theorem C2_release_not_destroy :
    (∀ {α : Type} (s : SqlitePool) (d : Driver) (immediateArg : Option Bool)
        (workTrace : List DriverCall) (work : Except Err α),
      (SqlitePool.transaction s none d immediateArg workTrace work).1
          = [.acquire, .release] ∧
      (SqlitePool.transactionAsync s none d immediateArg workTrace work).1
          = [.acquire, .release]) ∧
    (∀ {α : Type} (s : SqlitePool) (d : Driver) (immediateArg : Option Bool)
        (workTrace : List DriverCall) (e e2 : Err),
      d.exec (if immediateArg.getD s.immediate then "BEGIN IMMEDIATE" else "BEGIN")
          = none →
      d.exec "ROLLBACK" = some e2 →
      (SqlitePool.transaction s none d immediateArg workTrace
          (Except.error e : Except Err α)).2 = .error e2) ∧
    (∀ {α : Type} (pImm : Bool) (d : Driver) (immediateArg : Option Bool) (e e2 : Err),
      d.exec (if immediateArg.getD pImm then "BEGIN IMMEDIATE" else "BEGIN") = none →
      d.exec "ROLLBACK" = some e2 →
      (SqliteV1.transaction pImm none d immediateArg
          (Except.error e : Except Err α)).1 = [.acquire, .destroy] ∧
      (SqliteV1.transaction pImm none d immediateArg
          (Except.error e : Except Err α)).2 = .error e) := by
  refine ⟨fun _ _ _ _ _ => ⟨rfl, rfl⟩, ?_, ?_⟩
  · intro α s d immediateArg workTrace e e2 hbegin hrb
    simp [SqlitePool.transaction, acquireRelease, Database.transaction, trxWrap,
      trxCheck, SqlitePool.createConn, hbegin, hrb]
  · intro α pImm d immediateArg e e2 hbegin hrb
    constructor <;> simp [SqliteV1.transaction, hbegin, hrb]

/-- C2 witness: on a driver whose ROLLBACK fails, the current facade
surfaces the rollback error, and the earlier revision destroys the
connection. -/
theorem C2_release_not_destroy_witness :
    (SqlitePool.transaction (SqlitePool.make none) none
        (failOn "ROLLBACK" "disk error") none []
        (Except.error "boom" : Except Err Nat)).2 = .error "disk error" ∧
    (SqliteV1.transaction true none (failOn "ROLLBACK" "disk error") none
        (Except.error "boom" : Except Err Nat)).1 = [.acquire, .destroy] := by
  constructor
  · exact C2_release_not_destroy.2.1 (SqlitePool.make none)
      (failOn "ROLLBACK" "disk error") none [] "boom" "disk error" rfl rfl
  · exact (C2_release_not_destroy.2.2 true (failOn "ROLLBACK" "disk error") none
      "boom" "disk error" rfl rfl).1

/-- The params value `args.length === 1 ? args[0] : args` that a
non-streaming `prepareParams` call (which cannot throw) hands to the
driver. -/
def normParams (args : List JsVal) : JsVal :=
  match args with
  | [p] => p
  | _ => .arr args

/-- A non-streaming `prepareParams` call always succeeds with the
normalized params and no callback. -/
theorem prepareParams_eq_normParams (args : List JsVal) :
    prepareParams args = .ok (normParams args, none) := by
  cases args with
  | nil => rfl
  | cons a t => cases t with | nil => rfl | cons b t2 => rfl

/-- C7 counterexample: a driver statement handle whose reset callback
reports an error; `Statement.reset` nevertheless resolves with the
Statement itself instead of rejecting with the reported error. -/
theorem C7_reset_counterexample :
    ({ okStmtDriver with resetErr := some "reset failed" } : StmtDriver).resetErr
        = some "reset failed" ∧
    (Statement.reset { okStmtDriver with resetErr := some "reset failed" }).2
        = .ok .self ∧
    (Statement.reset { okStmtDriver with resetErr := some "reset failed" }).2
        ≠ .error "reset failed" :=
  ⟨rfl, rfl, fun h => Except.noConfusion h⟩

/-- C7 (amended): `bind`, `run`, `get`, `all` and `finalize` each perform
exactly one driver call and resolve on its success and reject with its
reported error; `run` and `bind` resolve with the Statement itself,
`get` with a single row or the absence indicator, `all` with the full
ordered row sequence; `reset` performs exactly one driver call but
always resolves with the Statement itself, ignoring any error its
callback reports. -/
theorem C7_statement_ops (sd : StmtDriver) (args : List JsVal) :
    (Statement.bind sd args).1 = ["bind"] ∧
    (sd.bindErr (normParams args) = none → (Statement.bind sd args).2 = .ok .self) ∧
    (∀ e, sd.bindErr (normParams args) = some e →
      (Statement.bind sd args).2 = .error e) ∧
    (Statement.run sd args).1 = ["run"] ∧
    (sd.runErr (normParams args) = none → (Statement.run sd args).2 = .ok .self) ∧
    (∀ e, sd.runErr (normParams args) = some e →
      (Statement.run sd args).2 = .error e) ∧
    (Statement.get sd args).1 = ["get"] ∧
    (∀ r, sd.getRes (normParams args) = .ok r →
      (Statement.get sd args).2 = .ok (.row r)) ∧
    (∀ e, sd.getRes (normParams args) = .error e →
      (Statement.get sd args).2 = .error e) ∧
    (Statement.all sd args).1 = ["all"] ∧
    (∀ rs, sd.allRes (normParams args) = .ok rs →
      (Statement.all sd args).2 = .ok (.rows rs)) ∧
    (∀ e, sd.allRes (normParams args) = .error e →
      (Statement.all sd args).2 = .error e) ∧
    (Statement.finalize sd).1 = ["finalize"] ∧
    (sd.finalizeErr = none → (Statement.finalize sd).2 = .ok .unit) ∧
    (∀ e, sd.finalizeErr = some e → (Statement.finalize sd).2 = .error e) ∧
    (Statement.reset sd).1 = ["reset"] ∧
    (Statement.reset sd).2 = .ok .self := by
  refine ⟨?_, ?_, ?_, ?_, ?_, ?_, ?_, ?_, ?_, ?_, ?_, ?_, ?_, ?_, ?_, rfl, rfl⟩ <;>
    · intros
      simp_all [Statement.bind, Statement.run, Statement.get, Statement.all,
        Statement.finalize, prepareParams_eq_normParams]

/-- C7 witness: on an all-succeeding statement handle, `bind` resolves
with the Statement itself. -/
theorem C7_statement_ops_witness :
    (Statement.bind okStmtDriver []).2 = .ok .self :=
  (C7_statement_ops okStmtDriver []).2.1 rfl

/-- A streaming `prepareParams` call on a nonempty argument list pops the
trailing callback and normalizes the remaining arguments. -/
theorem prepareParams_concat (args : List JsVal) (cb : JsVal) :
    prepareParams (args ++ [cb]) true = .ok (normParams args, some cb) := by
  simp [prepareParams, List.getLast?_concat, List.dropLast_concat, normParams]

/-- Once the guarded per-row callback has recorded an error, later rows
leave the state untouched (the early return in `cb`). -/
theorem eachFold_frozen (cb : JsVal → Except Err Unit) (rows : List JsVal)
    (acc : List JsVal) (e : Err) :
    rows.foldl (eachStep cb) (acc, some e) = (acc, some e) := by
  induction rows with
  | nil => rfl
  | cons r rs ih => simpa [eachStep] using ih

/-- While the caller-supplied callback keeps succeeding, every streamed
row is passed to it in order and no error is recorded. -/
theorem eachFold_ok (cb : JsVal → Except Err Unit) (rows : List JsVal)
    (h : ∀ r ∈ rows, cb r = .ok ()) (acc : List JsVal) :
    rows.foldl (eachStep cb) (acc, none) = (acc ++ rows, none) := by
  induction rows generalizing acc with
  | nil => simp
  | cons r rs ih =>
    have hr : cb r = .ok () := h r (by simp)
    have := ih (fun x hx => h x (by simp [hx])) (acc ++ [r])
    simpa [eachStep, hr] using this

/-- The guarded callback is invoked on the failing row itself but on no
subsequent row, and the recorded error is the first one thrown. -/
theorem eachFold_split (cb : JsVal → Except Err Unit) (pre : List JsVal)
    (r : JsVal) (post : List JsVal) (e : Err)
    (hpre : ∀ x ∈ pre, cb x = .ok ()) (hr : cb r = .error e) (acc : List JsVal) :
    (pre ++ r :: post).foldl (eachStep cb) (acc, none)
      = (acc ++ pre ++ [r], some e) := by
  rw [List.foldl_append, eachFold_ok cb pre hpre acc]
  have hstep : eachStep cb (acc ++ pre, none) r = (acc ++ pre ++ [r], some e) := by
    simp [eachStep, hr]
  simp only [List.foldl_cons, hstep, eachFold_frozen]

/-- C8: `each` streams rows one at a time to the caller-supplied
callback and resolves with the final row count; if the callback throws
on some row, no subsequent row reaches the callback and the first
thrown error becomes the rejection reported at driver completion; a
driver-reported error takes precedence; and the `Statement.each` and
`Database.each` wrappers each make exactly one driver call around this
logic. -/
theorem C8_each_stream :
    (∀ (rows : List JsVal) (rowsCount : Nat) (cb : JsVal → Except Err Unit),
      (∀ r ∈ rows, cb r = .ok ()) →
      eachOutcome rows none rowsCount cb = (rows, .ok rowsCount)) ∧
    (∀ (pre : List JsVal) (r : JsVal) (post : List JsVal) (e : Err)
        (rowsCount : Nat) (cb : JsVal → Except Err Unit),
      (∀ x ∈ pre, cb x = .ok ()) → cb r = .error e →
      eachOutcome (pre ++ r :: post) none rowsCount cb = (pre ++ [r], .error e)) ∧
    (∀ (rows : List JsVal) (e : Err) (rowsCount : Nat) (cb : JsVal → Except Err Unit),
      (eachOutcome rows (some e) rowsCount cb).2 = .error e) ∧
    (∀ (sd : StmtDriver) (args : List JsVal) (cbv : JsVal)
        (cb : JsVal → Except Err Unit),
      Statement.each sd (args ++ [cbv]) cb
        = (["each"],
            eachOutcome (sd.eachRows (normParams args)) (sd.eachErr (normParams args))
              (sd.eachCount (normParams args)) cb)) ∧
    (∀ (conn : DbConn) (d : Driver) (sql : String) (args : List JsVal)
        (cbv : JsVal) (cb : JsVal → Except Err Unit),
      conn.trx = none →
      Database.each conn d sql (args ++ [cbv]) cb
        = ([.each sql (normParams args)],
            eachOutcome (d.eachRows sql (normParams args))
              (d.eachErr sql (normParams args))
              (d.eachCount sql (normParams args)) cb)) := by
  refine ⟨?_, ?_, ?_, ?_, ?_⟩
  · intro rows rowsCount cb h
    simp [eachOutcome, eachFold_ok cb rows h []]
  · intro pre r post e rowsCount cb hpre hr
    simp [eachOutcome, eachFold_split cb pre r post e hpre hr []]
  · intro rows e rowsCount cb
    rfl
  · intro sd args cbv cb
    simp [Statement.each, prepareParams_concat]
  · intro conn d sql args cbv cb hnone
    simp [Database.each, trxCheck, hnone, prepareParams_concat]

/-- A row callback that throws on the row holding the number 2. -/
def failOnNum2 (v : JsVal) : Except Err Unit :=
  match v with
  | .num n => if n = 2 then .error "cb boom" else .ok ()
  | _ => .ok ()

/-- C8 witness: streaming three rows where the callback throws on the
second suppresses the third row and rejects with the thrown error. -/
theorem C8_each_stream_witness :
    eachOutcome [JsVal.num 1, JsVal.num 2, JsVal.num 3] none 3 failOnNum2
      = ([JsVal.num 1, JsVal.num 2], .error "cb boom") :=
  C8_each_stream.2.1 [JsVal.num 1] (JsVal.num 2) [JsVal.num 3] "cb boom" 3 failOnNum2
    (by intro x hx; simp at hx; subst hx; rfl) rfl

/-- The downward walk reverts exactly the longest prefix of the
descending row list on which the revert condition holds. -/
theorem revertWalk_fst_eq_takeWhile (m : List Migration) (lf : Int) (f : Force) :
    ∀ (prev db : List Migration),
      (revertWalk m lf f prev db).1 = prev.takeWhile (revertCond m lf f) := by
  intro prev
  induction prev with
  | nil => intro db; rfl
  | cons p rest ih =>
    intro db
    by_cases hc : revertCond m lf f p
    · simp [revertWalk, hc, List.takeWhile_cons, ih]
    · simp [revertWalk, hc, List.takeWhile_cons]

/-- On a descending row list, every row whose id exceeds the forced
integer target is reverted by the walk: such rows form a prefix, and
each of them satisfies the forced-target disjunct of the condition. -/
theorem revertWalk_mem_of_gt (m : List Migration) (lf : Int) (N : Int) :
    ∀ (prev db : List Migration), List.Sorted migGE prev →
      ∀ row ∈ prev, N < row.id →
        row ∈ (revertWalk m lf (.int N) prev db).1 := by
  intro prev
  induction prev with
  | nil => intro db _ row hrow; cases hrow
  | cons p rest ih =>
    intro db hsorted row hrow hgt
    have hple : ∀ x ∈ rest, x.id ≤ p.id := by
      intro x hx
      exact (List.sorted_cons.mp hsorted).1 x hx
    cases hrow with
    | head =>
      have hc : revertCond m lf (.int N) p = true := by
        simp [revertCond, hgt]
      simp [revertWalk, hc]
    | tail _ hrow =>
      have hpgt : N < p.id := lt_of_lt_of_le hgt (hple row hrow)
      have hc : revertCond m lf (.int N) p = true := by
        simp [revertCond, hpgt]
      simp only [revertWalk, hc, if_pos]
      exact List.mem_cons_of_mem p
        (ih (db.filter (fun x => x.id != p.id)) (List.sorted_cons.mp hsorted).2
          row hrow hgt)

/-- The downward walk only removes rows: the remaining list is always a
sublist of the input rows. -/
theorem revertWalk_snd_sublist (m : List Migration) (lf : Int) (f : Force) :
    ∀ (prev db : List Migration), (revertWalk m lf f prev db).2.Sublist db := by
  intro prev
  induction prev with
  | nil => intro db; exact List.Sublist.refl db
  | cons p rest ih =>
    intro db
    by_cases hc : revertCond m lf f p
    · simp only [revertWalk, hc, if_pos]
      exact (ih (db.filter (fun x => x.id != p.id))).trans (List.filter_sublist db)
    · simp only [revertWalk, hc]
      exact List.Sublist.refl db

/-- In a list sorted ascending by id, the id of every element is bounded by
the id of the last element. -/
theorem le_getLast_id_of_sorted :
    ∀ (l : List Migration), List.Sorted (fun a b : Migration => a.id ≤ b.id) l →
      ∀ x ∈ l, x.id ≤ ((l.getLast?).map Migration.id).getD 0 := by
  intro l
  induction l with
  | nil => intro _ x hx; cases hx
  | cons a rest ih =>
    intro hsorted x hx
    cases rest with
    | nil =>
      simp only [List.mem_singleton] at hx
      subst hx
      simp [List.getLast?]
    | cons b t =>
      rw [List.getLast?_cons_cons]
      cases hx with
      | head =>
        have hab : a.id ≤ b.id := (List.sorted_cons.mp hsorted).1 b (by simp)
        have hb := ih (List.sorted_cons.mp hsorted).2 b (by simp)
        exact le_trans hab hb
      | tail _ hx =>
        exact ih (List.sorted_cons.mp hsorted).2 x hx

/-- Fixture: migration 1 of the concrete two-migration scenario. -/
def mig1 : Migration := ⟨1, "one", "up1", "down1"⟩

/-- Fixture: migration 2 of the concrete two-migration scenario. -/
def mig2 : Migration := ⟨2, "two", "up2", "down2"⟩

/-- C9: with `force: N`, the forced id is an inclusive upper bound —
every applied row with id greater than N is reverted; the downward walk
stops at the first row matching no revert condition; a migration is
applied exactly when its id exceeds the highest still-applied id and
does not exceed N; and on the concrete scenario with migrations 1 and 2
applied, `migrate(force: 1)` reverts migration 2 and leaves migration 1
intact. -/
theorem C9_force_int_inclusive_bound :
    (∀ (migrations dbMigrations : List Migration) (N : Int) (row : Migration),
      row ∈ dbMigrations → N < row.id →
      row ∈ (runMigrations migrations dbMigrations (.int N)).reverted) ∧
    (∀ (migrations dbMigrations : List Migration) (force : Force),
      (runMigrations migrations dbMigrations force).reverted
        = (sortDescById dbMigrations).takeWhile
            (revertCond migrations (((migrations.getLast?).map Migration.id).getD 0)
              force)) ∧
    (∀ (migrations dbMigrations : List Migration) (N : Int),
      (runMigrations migrations dbMigrations (.int N)).applied
        = migrations.filter (fun m =>
            ((((runMigrations migrations dbMigrations
                  (.int N)).remaining.getLast?).map Migration.id).getD 0 < m.id)
              && m.id ≤ N)) ∧
    (∀ (migrations dbMigrations : List Migration) (force : Force),
      List.Sorted (fun a b : Migration => a.id ≤ b.id) dbMigrations →
      ∀ x ∈ (runMigrations migrations dbMigrations force).remaining,
        x.id ≤ ((((runMigrations migrations dbMigrations
            force).remaining.getLast?).map Migration.id).getD 0)) ∧
    ((runMigrations [mig1, mig2] [mig1, mig2] (.int 1)).reverted = [mig2] ∧
      (runMigrations [mig1, mig2] [mig1, mig2] (.int 1)).applied = [] ∧
      (runMigrations [mig1, mig2] [mig1, mig2] (.int 1)).remaining = [mig1]) := by
  refine ⟨?_, ?_, ?_, ?_, ?_, ?_, ?_⟩
  · intro migrations db N row hrow hgt
    have hmem : row ∈ sortDescById db :=
      ((List.perm_insertionSort migGE db).mem_iff).mpr hrow
    have hsort : List.Sorted migGE (sortDescById db) :=
      List.sorted_insertionSort migGE db
    simpa [runMigrations] using
      revertWalk_mem_of_gt migrations
        (((migrations.getLast?).map Migration.id).getD 0) N (sortDescById db) db
        hsort row hmem hgt
  · intro migrations db force
    simp [runMigrations, revertWalk_fst_eq_takeWhile]
  · intro migrations db N
    rfl
  · intro migrations db force hsorted x hx
    have hsub : (runMigrations migrations db force).remaining.Sublist db := by
      simp only [runMigrations]
      exact revertWalk_snd_sublist migrations _ force (sortDescById db) db
    exact le_getLast_id_of_sorted _ (hsorted.sublist hsub) x hx
  · decide
  · decide
  · decide

/-- C9 witness: migration 2 is reverted in the concrete scenario via the
general forced-bound property. -/
theorem C9_force_int_inclusive_bound_witness :
    mig2 ∈ (runMigrations [mig1, mig2] [mig1, mig2] (.int 1)).reverted :=
  C9_force_int_inclusive_bound.1 [mig1, mig2] [mig1, mig2] 1 mig2
    (by decide) (by decide)

/-- C10: when the directory yields no file matching the migration
filename pattern, or any matching file lacks a down separator,
`migrate()` settles with an error after running zero apply/revert SQL
steps, whatever SQL the migration body would have issued: validation of
the entire file set completes before the body runs. -/
theorem C10_validation_before_sql (dirFiles : List MigFile)
    (body : List MigFile → List String) :
    ((dirFiles.filter (fun f => matchesMigrationFilename f.filename)).isEmpty = true →
      migrateSqlSteps dirFiles body = [] ∧
      migrateError dirFiles = some "No migration files found") ∧
    (∀ f ∈ dirFiles, matchesMigrationFilename f.filename = true →
      hasDownSep f.content = false →
      migrateSqlSteps dirFiles body = [] ∧ (migrateError dirFiles).isSome = true) := by
  constructor
  · intro hempty
    constructor <;> simp [migrateSqlSteps, migrateError, migrateValidate, hempty]
  · intro f hf hmatch hnosep
    have hmem : f ∈ dirFiles.filter (fun g => matchesMigrationFilename g.filename) :=
      List.mem_filter.mpr ⟨hf, hmatch⟩
    have hne : dirFiles.filter (fun g => matchesMigrationFilename g.filename) ≠ [] :=
      List.ne_nil_of_mem hmem
    have hempty : (dirFiles.filter
        (fun g => matchesMigrationFilename g.filename)).isEmpty = false := by
      simpa [List.isEmpty_iff] using hne
    have hfind : ((dirFiles.filter (fun g => matchesMigrationFilename g.filename)).find?
        (fun g => !(hasDownSep g.content))).isSome = true := by
      rw [List.find?_isSome]
      exact ⟨f, hmem, by simp [hnosep]⟩
    obtain ⟨g, hg⟩ := Option.isSome_iff_exists.mp hfind
    constructor <;> simp [migrateSqlSteps, migrateError, migrateValidate, hempty, hg]

/-- C10 witness: a single migration file with no down separator makes
`migrate()` fail with zero SQL steps issued. -/
theorem C10_validation_before_sql_witness :
    migrateSqlSteps [⟨"001-init.sql", "CREATE TABLE t;"⟩] (fun _ => ["body sql"]) = [] ∧
    (migrateError [⟨"001-init.sql", "CREATE TABLE t;"⟩]).isSome = true :=
  (C10_validation_before_sql [⟨"001-init.sql", "CREATE TABLE t;"⟩]
      (fun _ => ["body sql"])).2 ⟨"001-init.sql", "CREATE TABLE t;"⟩
    (List.mem_singleton.mpr rfl) (by decide) (by decide)
